import Mathlib

/-!
# Verification of the kstream crash-safe transaction pipeline

A shallow embedding of the kstream library (a reliable Krist API client for
CC:Tweaked, written in TypeScriptToLua).  Each definition below is translated
from a named function of the source tree; theorems check the natural-language
specification against these definitions.

Sources embedded here:
* `src/state.ts` — the durable state store (`State.open`, `State.commit`).
* `src/boxView.ts` — `InnerHookContext.prepare/commit/abort`, `enqueueSend`.
* `src/stream.ts` — `Stream._runHook`, `Stream._wasSent`, `Stream._send`.
* `src/transactionSocket.ts` — the `listen` event dispatch.
* the `TransactionQueue` (`tryPushTransaction`) and the socket push callback
  of `TransactionStream`.
* `util.ts` — `parseTime`.
-/

/-! ## Data model (`src/state.ts`) -/

/-- `OutboxStatus` from `src/state.ts`. -/
inductive OutboxStatus where
  /-- The transaction is definitely pending and has not been sent. -/
  | pending
  /-- We do not know whether the transaction has been sent or not. -/
  | unknown
  /-- The transaction has definitely been sent. -/
  | sent
deriving DecidableEq, Repr, BEq

/-- `OutgoingTransaction` from `src/state.ts`.  `meta` is a Lua string map,
modelled as an association list; `ud` is opaque serializable user data,
modelled as a string.  `to` is renamed `toAddr` (Lean keyword). -/
structure OutgoingTransaction where
  amount : Int
  toAddr : String
  privateKey : String
  meta : List (String × String)
  ud : String
deriving DecidableEq, Repr

/-- `OutboxEntry` from `src/state.ts`. -/
structure OutboxEntry where
  status : OutboxStatus
  transaction : OutgoingTransaction
  id : String
  ref : String
deriving DecidableEq, Repr

/-- `ApiTransaction` from `util.ts`.  `from` and `to` are renamed
`fromAddr`/`toAddr` (Lean keywords); all optional fields are `Option`s. -/
structure ApiTransaction where
  id : Int
  fromAddr : Option String
  toAddr : String
  value : Int
  time : String
  name : Option String
  metadata : Option String
  sent_metaname : Option String
  sent_name : Option String
  type : String
deriving DecidableEq, Repr

/-- `Boxes` from `src/state.ts`. -/
structure Boxes where
  revision : Int
  inbox : Option ApiTransaction
  outbox : List OutboxEntry
deriving DecidableEq, Repr

/-- `StoredState` from `src/state.ts`. -/
structure StoredState where
  endpoint : String
  includeMined : Bool
  address : Option String
  lastPoppedId : Int
  committed : Boxes
  prepared : Option Boxes
deriving DecidableEq, Repr

/-! ## The on-disk directory

`State` keeps a directory with up to three files: `stream.ltn` (`S`, the
canonical copy), `stream.mod.ltn` (`S.mod`, a pending new version) and
`stream.new.ltn` (`S.new`, used only by `create`).  A file either is absent or
holds one complete serialized `StoredState`; serialization itself is the
identity here (`textutils.serialize`/`unserialize` round-trip). -/

/-- The state directory: contents of `S`, `S.mod` and `S.new`. -/
structure Disk where
  s : Option StoredState
  sMod : Option StoredState
  sNew : Option StoredState
deriving DecidableEq, Repr

/-- First step of `State.commit` (`src/state.ts:189-192`): write the
serialized state into `S.mod`. -/
def writeModStep (st : StoredState) (d : Disk) : Disk :=
  { d with sMod := some st }

/-- Second step of `State.commit` (`src/state.ts:194`): `fs.delete(path)`. -/
def deleteSStep (d : Disk) : Disk :=
  { d with s := none }

/-- Third step of `State.commit` (`src/state.ts:195`):
`fs.move(pathMod, path)`. -/
def renameStep (d : Disk) : Disk :=
  { d with s := d.sMod, sMod := none }

/-- `State.commit` (`src/state.ts:184-196`): write `S.mod`, delete `S`, rename
`S.mod → S`. -/
def stateCommit (st : StoredState) (d : Disk) : Disk :=
  renameStep (deleteSStep (writeModStep st d))

/-- The directory contents after the first `k` of the three steps of
`State.commit` (a crash may interrupt execution between any two of them). -/
def commitSteps (st : StoredState) (d : Disk) : Nat → Disk
  | 0 => d
  | 1 => writeModStep st d
  | 2 => deleteSStep (writeModStep st d)
  | _ => renameStep (deleteSStep (writeModStep st d))

/-- The revision-recovery branch of `State.open` (`src/state.ts:137-144`): if
the stored document has a prepared sub-state whose `revision` equals the
caller's `revision` argument, promote it to `committed`; otherwise discard it.
In Lua a `nil` revision argument never equals a number. -/
def recoverRevision (doc : StoredState) (revision : Option Int) : StoredState :=
  match doc.prepared with
  | some p =>
    if revision = some p.revision then
      { doc with committed := p, prepared := none }
    else
      { doc with prepared := none }
  | none => { doc with prepared := none }

/-- `State.open` (`src/state.ts:110-149`): delete any leftover `S.new`; if `S`
exists delete `S.mod`, else if `S.mod` exists rename it to `S`, else fail; read
the document, apply `recoverRevision`, and commit the recovered state back to
disk before returning.  Returns the in-memory state and the final directory, or
`none` when the directory holds no valid state. -/
def stateOpen (d : Disk) (revision : Option Int) : Option (StoredState × Disk) :=
  let d1 : Disk := { d with sNew := none }
  match d1.s with
  | some doc =>
    let d2 : Disk := { d1 with sMod := none }
    let st := recoverRevision doc revision
    some (st, stateCommit st d2)
  | none =>
    match d1.sMod with
    | some doc =>
      let d2 : Disk := { d1 with s := some doc, sMod := none }
      let st := recoverRevision doc revision
      some (st, stateCommit st d2)
    | none => none

/-- Modelled from the spec (§4.1 "Revision recovery"), for comparison with the
source-derived `stateOpen`: on `open(dir, revision?)`, if `state.prepared` is
present and `state.prepared.revision == revision`, promote it
(`committed ← prepared; prepared ← null`); otherwise discard `prepared`. -/
def specOpenRecovery (doc : StoredState) (revision : Option Int) : StoredState :=
  match doc.prepared with
  | some p =>
    if revision = some p.revision then
      { doc with committed := p, prepared := none }
    else
      { doc with prepared := none }
  | none => { doc with prepared := none }

theorem recoverRevision_eq_spec (doc : StoredState) (revision : Option Int) :
    recoverRevision doc revision = specOpenRecovery doc revision := rfl

/-! ## Claims C1 and C2: the durability protocol -/

/-- **C1.** For every stored state document on disk and every optional revision
argument `r`, `State.open(dir, r)` yields a state in which: if the stored
document had a non-null prepared record with `prepared.revision == r`, then
`committed` equals the old prepared record; otherwise `committed` equals the
old committed record; in both cases `prepared` is null afterwards, and the
recovered state is written back to disk (an unconditional commit) before
`open` returns. -/
theorem stateOpen_recovery_C1 (d : Disk) (doc : StoredState) (revision : Option Int)
    (h : d.s = some doc) :
    stateOpen d revision =
      some (specOpenRecovery doc revision,
        ⟨some (specOpenRecovery doc revision), none, none⟩)
    ∧ (specOpenRecovery doc revision).prepared = none
    ∧ (specOpenRecovery doc revision).committed =
        (match doc.prepared with
         | some p => if revision = some p.revision then p else doc.committed
         | none => doc.committed) := by
  obtain ⟨s, m, n⟩ := d
  cases h
  refine ⟨rfl, ?_, ?_⟩
  · cases hp : doc.prepared with
    | none => simp [specOpenRecovery, hp]
    | some p => simp only [specOpenRecovery, hp]; split <;> rfl
  · cases hp : doc.prepared with
    | none => simp [specOpenRecovery, hp]
    | some p => simp only [specOpenRecovery, hp]; split <;> rfl

/-- A sample prepared `Boxes` record used by concrete witnesses. -/
def bxPrepared : Boxes :=
  { revision := 7, inbox := none,
    outbox := [{ status := .pending,
                 transaction := { amount := 5, toAddr := "kxyz", privateKey := "pk",
                                  meta := [], ud := "" },
                 id := "id-1", ref := "ref-1" }] }

/-- A sample committed `Boxes` record used by concrete witnesses. -/
def bxCommitted : Boxes := { revision := 6, inbox := none, outbox := [] }

/-- A sample stored document with a prepared record of revision 7. -/
def docPrepared : StoredState :=
  { endpoint := "https://krist.dev", includeMined := false, address := none,
    lastPoppedId := 5, committed := bxCommitted, prepared := some bxPrepared }

/-- A sample directory whose `S` file holds `docPrepared`. -/
def dskPrepared : Disk := ⟨some docPrepared, none, some docPrepared⟩

/-- Witness for C1: opening `dskPrepared` with the matching revision 7
promotes the prepared record. -/
theorem stateOpen_recovery_C1_witness :
    stateOpen dskPrepared (some 7) =
      some (specOpenRecovery docPrepared (some 7),
        ⟨some (specOpenRecovery docPrepared (some 7)), none, none⟩)
    ∧ (specOpenRecovery docPrepared (some 7)).prepared = none
    ∧ (specOpenRecovery docPrepared (some 7)).committed =
        (match docPrepared.prepared with
         | some p => if (some 7 : Option Int) = some p.revision then p
                     else docPrepared.committed
         | none => docPrepared.committed) :=
  stateOpen_recovery_C1 dskPrepared docPrepared (some 7) rfl

/-- **C2.** Starting from a directory holding a valid committed state, for
every prefix of the steps of `State.commit` (write `S.mod`, delete `S`, rename
`S.mod` to `S`) at which a crash may interrupt execution, at least one of the
files `{S, S.mod}` contains a complete serialized state, and a subsequent
`State.open` (which deletes any leftover `S.new`, deletes `S.mod` when `S`
exists, and renames `S.mod` to `S` when `S` is missing) reconstructs either the
pre-commit state or the newly written state (each put through the documented
revision recovery and persisted back). -/
theorem stateCommit_crash_safe_C2 (d : Disk) (stOld stNew : StoredState)
    (revision : Option Int) (k : Nat)
    (hS : d.s = some stOld) (hM : d.sMod = none) (hk : k ≤ 3) :
    ((commitSteps stNew d k).s.isSome = true
      ∨ (commitSteps stNew d k).sMod.isSome = true)
    ∧ (stateOpen (commitSteps stNew d k) revision =
         some (recoverRevision stOld revision,
           ⟨some (recoverRevision stOld revision), none, none⟩)
       ∨ stateOpen (commitSteps stNew d k) revision =
         some (recoverRevision stNew revision,
           ⟨some (recoverRevision stNew revision), none, none⟩)) := by
  obtain ⟨s, m, n⟩ := d
  cases hS
  cases hM
  interval_cases k
  · exact ⟨Or.inl rfl, Or.inl rfl⟩
  · exact ⟨Or.inl rfl, Or.inl rfl⟩
  · exact ⟨Or.inr rfl, Or.inr rfl⟩
  · exact ⟨Or.inl rfl, Or.inr rfl⟩

/-- A sample pre-commit document with no prepared record. -/
def docOld : StoredState :=
  { endpoint := "https://krist.dev", includeMined := false, address := none,
    lastPoppedId := 5, committed := bxCommitted, prepared := none }

/-- A sample directory whose `S` file holds `docOld` and whose `S.mod` is
absent. -/
def dskOld : Disk := ⟨some docOld, none, none⟩

/-- Witness for C2: crashing right after `State.commit docPrepared` deleted
`S` (prefix of length 2) still leaves the directory recoverable; `open` with
revision 7 reconstructs the newly written state. -/
theorem stateCommit_crash_safe_C2_witness :
    ((commitSteps docPrepared dskOld 2).s.isSome = true
      ∨ (commitSteps docPrepared dskOld 2).sMod.isSome = true)
    ∧ (stateOpen (commitSteps docPrepared dskOld 2) (some 7) =
         some (recoverRevision docOld (some 7),
           ⟨some (recoverRevision docOld (some 7)), none, none⟩)
       ∨ stateOpen (commitSteps docPrepared dskOld 2) (some 7) =
         some (recoverRevision docPrepared (some 7),
           ⟨some (recoverRevision docPrepared (some 7)), none, none⟩)) :=
  stateCommit_crash_safe_C2 dskOld docOld docPrepared (some 7) 2 rfl rfl
    (by decide)

/-! ## The hook execution protocol (`Stream._runHook`, `src/stream.ts:361-393`)

`_runHook` receives an `InnerHookContext` (`src/boxView.ts`) whose
`uncommitted` working copy was built by the caller (the constructor clones
`state.committed` and increments its `revision`; callers such as
`_inboxWorker` may further edit it before the hook runs).  It then runs the
user hook under `pcall`, checks `onPrepare` is a function or nil, and drives
the prepare/commit/abort/afterCommit protocol.  We model the in-memory state,
the disk and the state mutex as a `Machine`, the observable behaviour of the
user hook as a `HookBehavior`, and record the steps taken in an event trace. -/

/-- The Lua-level in-memory machine: the `State` object's `StoredState`, the
state directory, and whether the state mutex is held. -/
structure Machine where
  stored : StoredState
  disk : Disk
  mutexHeld : Bool
deriving DecidableEq, Repr

/-- `State.prototype.commit` as an effect on the machine: persist `stored`. -/
def mCommit (m : Machine) : Machine :=
  { m with disk := stateCommit m.stored m.disk }

/-- `InnerHookContext.prepare` (`src/boxView.ts:46-53`):
`state.prepared ← uncommitted`, then a disk commit. -/
def innerPrepare (m : Machine) (u : Boxes) : Machine :=
  mCommit { m with stored := { m.stored with prepared := some u } }

/-- `InnerHookContext.commit` (`src/boxView.ts:55-65`):
`state.committed ← uncommitted`, `state.prepared ← nil`, disk commit. -/
def innerCommit (m : Machine) (u : Boxes) : Machine :=
  mCommit { m with stored := { m.stored with committed := u, prepared := none } }

/-- `InnerHookContext.abort` (`src/boxView.ts:67-76`):
`state.prepared ← nil`, disk commit, discard `uncommitted`. -/
def innerAbort (m : Machine) : Machine :=
  mCommit { m with stored := { m.stored with prepared := none } }

/-- `HeldMutex.unlock` as an effect on the machine. -/
def mUnlock (m : Machine) : Machine := { m with mutexHeld := false }

/-- An `enqueueSend` request issued by the hook body
(`HookContext.enqueueSend`, `src/boxView.ts:183-193`): the generated tracking
`id`, the generated dedup `ref`, and the transaction payload. -/
structure EnqueueReq where
  id : String
  ref : String
  tx : OutgoingTransaction
deriving DecidableEq, Repr

/-- `HookContext.enqueueSend`: append a PENDING `OutboxEntry` with fresh
`id`/`ref` UUIDs and a deep copy of the transaction to `uncommitted.outbox`. -/
def enqueueSend (u : Boxes) (r : EnqueueReq) : Boxes :=
  { u with outbox := u.outbox ++
      [{ status := .pending, transaction := r.tx, id := r.id, ref := r.ref }] }

/-- The working copy after the hook body ran: the entries it enqueued,
appended in order to the context's `uncommitted` boxes. -/
def workingCopy (upre : Boxes) (reqs : List EnqueueReq) : Boxes :=
  reqs.foldl enqueueSend upre

/-- The value left in the outer context's `onPrepare` field when the hook body
returns: nil, a function (which may throw when invoked), or some other value
(which fails the `expect.field(outer, "onPrepare", "function", "nil")` check
in `_runHook`). -/
inductive OnPrepareField where
  | nil
  | fn (throws : Bool)
  | nonFunction
deriving DecidableEq, Repr

/-- The observable behaviour of one user hook invocation: whether the body
throws, the `enqueueSend` calls it made, and the deferred callbacks it left on
the outer context (`afterCommit = none` means unset, `some b` means set with
`b` telling whether it throws when invoked). -/
structure HookBehavior where
  throws : Bool
  reqs : List EnqueueReq
  onPrepare : OnPrepareField
  afterCommit : Option Bool
deriving DecidableEq, Repr

/-- Steps observable during `_runHook`, in execution order. -/
inductive HEv where
  /-- The user hook body `fn` ran. -/
  | hookRun
  /-- `inner.prepare()` wrote `state.prepared` and committed to disk. -/
  | prepareWrite
  /-- `inner.commit()` replaced `state.committed` and committed to disk. -/
  | commitWrite
  /-- The `afterCommit` callback was invoked. -/
  | afterCommitRun
  /-- `inner.abort()` discarded the working copy and committed to disk. -/
  | abortWrite
  /-- `inner.held.unlock()` released the state mutex. -/
  | unlock
deriving DecidableEq, Repr, BEq

/-- The errors `_runHook` can re-raise. -/
inductive RunError where
  /-- The user hook body threw; its error is re-raised after the abort. -/
  | hookErr
  /-- `expect.field(outer, "onPrepare", "function", "nil")` failed. -/
  | badOnPrepare
  /-- The `onPrepare` callback threw after `prepare()`. -/
  | onPrepareErr
  /-- The `afterCommit` callback threw after `commit()`. -/
  | afterCommitErr
deriving DecidableEq, Repr

/-- The outcome of `_runHook`: final machine, the re-raised error (if any),
and the trace of observable steps. -/
structure RunHookResult where
  m : Machine
  raised : Option RunError
  trace : List HEv
deriving DecidableEq, Repr

/-- Number of occurrences of an event in a trace. -/
def countEv (e : HEv) : List HEv → Nat
  | [] => 0
  | x :: xs => (if x = e then 1 else 0) + countEv e xs

/-- Index of the first occurrence of an event in a trace (trace length if
absent). -/
def firstIdx (e : HEv) : List HEv → Nat
  | [] => 0
  | x :: xs => if x = e then 0 else firstIdx e xs + 1

/-- The commit-and-afterCommit tail of `_runHook` (`src/stream.ts:380-387`):
`inner.commit()`, then, when set, one `pcall(outer.afterCommit)`; on failure
unlock and re-raise. -/
def finishCommit (m1 : Machine) (w : Boxes) (pre : List HEv)
    (afterCommit : Option Bool) : RunHookResult :=
  let m2 := innerCommit m1 w
  match afterCommit with
  | none => ⟨m2, none, pre ++ [.commitWrite]⟩
  | some false => ⟨m2, none, pre ++ [.commitWrite, .afterCommitRun]⟩
  | some true =>
    ⟨mUnlock m2, some .afterCommitErr, pre ++ [.commitWrite, .afterCommitRun, .unlock]⟩

/-- `Stream._runHook` (`src/stream.ts:361-393`).  `upre` is the
`InnerHookContext`'s `uncommitted` working copy at entry.  The body and the
`expect.field` check on `onPrepare` run under one `pcall`; on failure the
context is aborted, the mutex released, and the error re-raised.  On success
an optional `prepare()`/`onPrepare` round precedes `commit()`, and an optional
`afterCommit` call follows it. -/
def runHook (m0 : Machine) (upre : Boxes) (b : HookBehavior) : RunHookResult :=
  let w := workingCopy upre b.reqs
  if b.throws then
    ⟨mUnlock (innerAbort m0), some .hookErr, [.hookRun, .abortWrite, .unlock]⟩
  else
    match b.onPrepare with
    | .nonFunction =>
      ⟨mUnlock (innerAbort m0), some .badOnPrepare, [.hookRun, .abortWrite, .unlock]⟩
    | .nil => finishCommit m0 w [.hookRun] b.afterCommit
    | .fn pThrows =>
      let m1 := innerPrepare m0 w
      if pThrows then
        ⟨mUnlock m1, some .onPrepareErr, [.hookRun, .prepareWrite, .unlock]⟩
      else
        finishCommit m1 w [.hookRun, .prepareWrite] b.afterCommit

/-! ## Claims C3, C4, C10: hook failure handling and afterCommit -/

/-- **C3.** For every hook execution via `Stream._runHook`, if the user hook
function throws, then the hook context is aborted: `state.committed` is
unchanged from its value before the hook ran (no enqueued outbox entries and
no inbox changes persist), `state.prepared` is null, the aborted state is
committed to disk, the mutex is released, and the original error is re-raised
to the caller. -/
theorem runHook_abort_C3 (m0 : Machine) (upre : Boxes) (b : HookBehavior)
    (h : b.throws = true) :
    (runHook m0 upre b).m.stored.committed = m0.stored.committed
    ∧ (runHook m0 upre b).m.stored.prepared = none
    ∧ (runHook m0 upre b).m.disk.s = some (runHook m0 upre b).m.stored
    ∧ (runHook m0 upre b).m.disk.sMod = none
    ∧ (runHook m0 upre b).m.mutexHeld = false
    ∧ (runHook m0 upre b).raised = some .hookErr := by
  simp [runHook, h, innerAbort, mCommit, mUnlock, stateCommit, renameStep,
    deleteSStep, writeModStep]

/-- A sample in-memory machine holding the state mutex over `dskOld`. -/
def mach0 : Machine := { stored := docOld, disk := dskOld, mutexHeld := true }

/-- A sample working copy at `_runHook` entry (revision already bumped by the
`InnerHookContext` constructor). -/
def upre0 : Boxes := { revision := 7, inbox := none, outbox := [] }

/-- A sample outgoing transaction enqueued by a hook. -/
def txOut : OutgoingTransaction :=
  { amount := 5, toAddr := "kxyz", privateKey := "pk",
    meta := [("message", "hi")], ud := "" }

/-- A sample `enqueueSend` request. -/
def reqW : EnqueueReq := ⟨"id-2", "ref-2", txOut⟩

/-- A hook behaviour whose body enqueues one send and then throws. -/
def bThrowing : HookBehavior :=
  { throws := true, reqs := [reqW], onPrepare := .nil, afterCommit := none }

/-- Witness for C3 at a concrete machine and a throwing hook. -/
theorem runHook_abort_C3_witness :
    (runHook mach0 upre0 bThrowing).m.stored.committed = mach0.stored.committed
    ∧ (runHook mach0 upre0 bThrowing).m.stored.prepared = none
    ∧ (runHook mach0 upre0 bThrowing).m.disk.s =
        some (runHook mach0 upre0 bThrowing).m.stored
    ∧ (runHook mach0 upre0 bThrowing).m.disk.sMod = none
    ∧ (runHook mach0 upre0 bThrowing).m.mutexHeld = false
    ∧ (runHook mach0 upre0 bThrowing).raised = some .hookErr :=
  runHook_abort_C3 mach0 upre0 bThrowing rfl

/-- **C4.** In `Stream._runHook`, the `afterCommit` callback (when set by the
hook) is invoked at most once and only strictly after `commit()` has replaced
`state.committed` with the hook's working copy and written it to disk; if
`afterCommit` throws, the error propagates to the caller while the committed
state retains the hook's changes, and the main hook is not re-run within that
execution. -/
theorem runHook_afterCommit_C4 (m0 : Machine) (upre : Boxes) (b : HookBehavior) :
    countEv .afterCommitRun (runHook m0 upre b).trace ≤ 1
    ∧ (HEv.afterCommitRun ∈ (runHook m0 upre b).trace →
        HEv.commitWrite ∈ (runHook m0 upre b).trace
        ∧ firstIdx .commitWrite (runHook m0 upre b).trace <
            firstIdx .afterCommitRun (runHook m0 upre b).trace)
    ∧ (HEv.commitWrite ∈ (runHook m0 upre b).trace →
        (runHook m0 upre b).m.stored.committed = workingCopy upre b.reqs
        ∧ (runHook m0 upre b).m.stored.prepared = none
        ∧ (runHook m0 upre b).m.disk.s = some (runHook m0 upre b).m.stored)
    ∧ ((runHook m0 upre b).raised = some .afterCommitErr →
        (runHook m0 upre b).m.stored.committed = workingCopy upre b.reqs
        ∧ countEv .hookRun (runHook m0 upre b).trace = 1) := by
  obtain ⟨throws, reqs, op, ac⟩ := b
  cases throws with
  | true => simp [runHook, countEv, firstIdx]
  | false =>
    cases op with
    | nonFunction => simp [runHook, countEv, firstIdx]
    | nil =>
      cases ac with
      | none =>
        simp [runHook, finishCommit, innerCommit, mCommit, stateCommit,
          renameStep, deleteSStep, writeModStep, countEv, firstIdx]
      | some t =>
        cases t <;>
          simp [runHook, finishCommit, innerCommit, mCommit, mUnlock,
            stateCommit, renameStep, deleteSStep, writeModStep, countEv,
            firstIdx]
    | fn pt =>
      cases pt with
      | true => simp [runHook, innerPrepare, mCommit, mUnlock, countEv, firstIdx]
      | false =>
        cases ac with
        | none =>
          simp [runHook, finishCommit, innerCommit, innerPrepare, mCommit,
            stateCommit, renameStep, deleteSStep, writeModStep, countEv,
            firstIdx]
        | some t =>
          cases t <;>
            simp [runHook, finishCommit, innerCommit, innerPrepare, mCommit,
              mUnlock, stateCommit, renameStep, deleteSStep, writeModStep,
              countEv, firstIdx]

/-- A hook behaviour that commits successfully but whose `afterCommit` throws. -/
def bAfterThrows : HookBehavior :=
  { throws := false, reqs := [reqW], onPrepare := .nil, afterCommit := some true }

/-- Witness for C4: at a concrete input where `afterCommit` throws, the error
propagates while the committed state keeps the hook's changes and the hook ran
exactly once. -/
theorem runHook_afterCommit_C4_witness :
    (runHook mach0 upre0 bAfterThrows).m.stored.committed =
      workingCopy upre0 bAfterThrows.reqs
    ∧ countEv .hookRun (runHook mach0 upre0 bAfterThrows).trace = 1 :=
  (runHook_afterCommit_C4 mach0 upre0 bAfterThrows).2.2.2 rfl

/-- **C10.** For every hook execution via `Stream._runHook`, if the hook body
returns normally but left `ctx.onPrepare` set to a value that is neither a
function nor nil, the execution is treated as a hook failure: the context is
aborted (`state.committed` unchanged, enqueued transactions discarded), the
mutex is released, an error is raised, and neither `prepare()` nor `commit()`
is performed. -/
theorem runHook_badOnPrepare_C10 (m0 : Machine) (upre : Boxes) (b : HookBehavior)
    (h1 : b.throws = false) (h2 : b.onPrepare = .nonFunction) :
    (runHook m0 upre b).m.stored.committed = m0.stored.committed
    ∧ (runHook m0 upre b).m.stored.prepared = none
    ∧ (runHook m0 upre b).m.disk.s = some (runHook m0 upre b).m.stored
    ∧ (runHook m0 upre b).m.mutexHeld = false
    ∧ (runHook m0 upre b).raised = some .badOnPrepare
    ∧ HEv.prepareWrite ∉ (runHook m0 upre b).trace
    ∧ HEv.commitWrite ∉ (runHook m0 upre b).trace := by
  simp [runHook, h1, h2, innerAbort, mCommit, mUnlock, stateCommit, renameStep,
    deleteSStep, writeModStep]

/-- A hook behaviour that enqueues a send and leaves `onPrepare` set to a
non-function, non-nil value. -/
def bBadOnPrepare : HookBehavior :=
  { throws := false, reqs := [reqW], onPrepare := .nonFunction,
    afterCommit := some false }

/-- Witness for C10 at a concrete machine and behaviour. -/
theorem runHook_badOnPrepare_C10_witness :
    (runHook mach0 upre0 bBadOnPrepare).m.stored.committed = mach0.stored.committed
    ∧ (runHook mach0 upre0 bBadOnPrepare).m.stored.prepared = none
    ∧ (runHook mach0 upre0 bBadOnPrepare).m.disk.s =
        some (runHook mach0 upre0 bBadOnPrepare).m.stored
    ∧ (runHook mach0 upre0 bBadOnPrepare).m.mutexHeld = false
    ∧ (runHook mach0 upre0 bBadOnPrepare).raised = some .badOnPrepare
    ∧ HEv.prepareWrite ∉ (runHook mach0 upre0 bBadOnPrepare).trace
    ∧ HEv.commitWrite ∉ (runHook mach0 upre0 bBadOnPrepare).trace :=
  runHook_badOnPrepare_C10 mach0 upre0 bBadOnPrepare rfl rfl

/-! ## The outbox sender (`Stream._send`, `src/stream.ts:456-527`)

`_send` operates on the head outbox entry under the state mutex.  Its network
interactions are modelled by two oracles: `searches` answers the successive
`/search/extended?q=<ref>` queries issued by `_wasSent` (`true` = the `ref`
metadata matched some transaction), and `posts` yields the outcomes of the
successive `POST /transactions/` calls.  The loop of `_send` retries forever
on network errors; exhausting a finite oracle is reported as `exhausted`
(cutting the loop short adds no further status writes, so every finite trace
of the real loop is covered). -/

/-- The outcome of one `http.post` to `/transactions/` in `_send`. -/
inductive PostResult where
  /-- A response arrived and its JSON has `ok = true`. -/
  | okResponse
  /-- A response arrived and its JSON has `ok = false` (a certified failure). -/
  | errResponse
  /-- The error channel returned a body with `ok = true` (inconsistent; the
  code throws). -/
  | errChannelOk
  /-- The error channel returned a body with `ok = false` (certified
  failure). -/
  | errChannelFail
  /-- No response at all: a network error. -/
  | network
deriving DecidableEq, Repr

/-- The result of `_send`. -/
inductive SendOutcome where
  /-- Returned `(true, nil)`. -/
  | success
  /-- Returned `(false, err)` with a structured API error. -/
  | failure
  /-- Threw "server returned an inconsistent error value". -/
  | thrown
  /-- The finite oracle ran out (the real loop would keep retrying). -/
  | exhausted
deriving DecidableEq, Repr

/-- The retry loop of `_send` (`src/stream.ts:482-526`), entered with the
entry's status already written as UNKNOWN.  Returns the outcome and the list
of `outgoing.status = X; commit()` writes it performs, in order. -/
def sendLoop : List PostResult → List Bool → SendOutcome × List OutboxStatus
  | [], _ => (.exhausted, [])
  | p :: ps, searches =>
    match p with
    | .okResponse => (.success, [.sent])
    | .errResponse => (.failure, [.pending])
    | .errChannelOk => (.thrown, [])
    | .errChannelFail => (.failure, [.pending])
    | .network =>
      match searches with
      | [] => (.exhausted, [])
      | true :: _ => (.success, [.sent])
      | false :: bs => sendLoop ps bs

/-- `Stream._send` (`src/stream.ts:456-527`) together with its `_wasSent` fast
path (`src/stream.ts:311-323`), as a function of the head entry's current
status and the two network oracles.  `_wasSent` returns `false` for PENDING
and `true` for SENT without touching the network; for UNKNOWN it consumes one
answer from `searches`.  When `_wasSent` holds, `_send` writes SENT, commits
and returns success; otherwise it builds the request, writes UNKNOWN, commits
and enters the POST loop. -/
def send (st0 : OutboxStatus) (searches : List Bool) (posts : List PostResult) :
    SendOutcome × List OutboxStatus :=
  match st0 with
  | .sent => (.success, [.sent])
  | .unknown =>
    match searches with
    | [] => (.exhausted, [])
    | true :: _ => (.success, [.sent])
    | false :: bs =>
      let r := sendLoop posts bs
      (r.1, .unknown :: r.2)
  | .pending =>
    let r := sendLoop posts searches
    (r.1, .unknown :: r.2)

/-- One status write is a legal step of the spec's state machine when it keeps
the value or follows PENDING → UNKNOWN → {PENDING, SENT}. -/
def stepAllowed : OutboxStatus → OutboxStatus → Bool
  | .pending, .unknown => true
  | .unknown, .pending => true
  | .unknown, .sent => true
  | a, b => a == b

/-- Every adjacent pair in the chain of status values (initial value followed
by the successive writes) is allowed. -/
def chainAllowed : OutboxStatus → List OutboxStatus → Bool
  | _, [] => true
  | a, b :: rest => stepAllowed a b && chainAllowed b rest

theorem chainAllowed_sendLoop (ps : List PostResult) (bs : List Bool) :
    chainAllowed .unknown (sendLoop ps bs).2 = true := by
  induction ps generalizing bs with
  | nil => rfl
  | cons p ps ih =>
    cases p with
    | okResponse => rfl
    | errResponse => rfl
    | errChannelOk => rfl
    | errChannelFail => rfl
    | network =>
      match bs with
      | [] => rfl
      | true :: _ => rfl
      | false :: bs' => exact ih bs'

/-- **C5.** For every execution of `Stream._send` (including its `_wasSent`
fast path) on the head outbox entry, each change it makes to that entry's
`status` field follows the state machine PENDING → UNKNOWN → {PENDING, SENT}:
the only transitions performed are PENDING to UNKNOWN, UNKNOWN to PENDING, and
UNKNOWN to SENT, and once an entry is SENT its status is never changed to
another value before the entry is removed. -/
theorem send_status_machine_C5 (st0 : OutboxStatus) (searches : List Bool)
    (posts : List PostResult) :
    chainAllowed st0 (send st0 searches posts).2 = true := by
  cases st0 with
  | sent => rfl
  | pending =>
    simp only [send, chainAllowed, stepAllowed, Bool.true_and]
    exact chainAllowed_sendLoop posts searches
  | unknown =>
    match searches with
    | [] => rfl
    | true :: _ => rfl
    | false :: bs =>
      show chainAllowed .unknown ((sendLoop posts bs).1, OutboxStatus.unknown :: (sendLoop posts bs).2).2 = true
      simp only [chainAllowed, stepAllowed, Bool.true_and]
      exact chainAllowed_sendLoop posts bs

/-! ## Claim C6: the UNKNOWN-status resolver fast path

The claim's last clause says that when the extended-search query finds no
match, `_send` "sets the status to PENDING and commits before proceeding to
build and issue the POST request".  In the source (`src/stream.ts:456-479`)
the no-match path performs no PENDING write at all: `_wasSent` merely returns
`false`, after which `_send` builds the request and writes UNKNOWN (with a
commit) before issuing the POST. -/

/-- **C6 counterexample.** Run `_send` on a head entry with status UNKNOWN,
with the extended search finding no match and the subsequent POST succeeding:
the complete sequence of status writes is `[UNKNOWN, SENT]`.  PENDING is never
written, refuting the claim that the no-match path "sets the status to PENDING
and commits before proceeding to build and issue the POST request". -/
theorem send_resolver_C6_counterexample :
    (send .unknown [false] [.okResponse]).2 = [.unknown, .sent]
    ∧ (send .unknown [false] [.okResponse]).1 = .success
    ∧ OutboxStatus.pending ∉ (send .unknown [false] [.okResponse]).2 := by
  refine ⟨rfl, rfl, ?_⟩
  simp [send, sendLoop]

/-- **C6 (amended).** When `Stream._send` runs on a head outbox entry: if its
status is SENT it returns success; if its status is UNKNOWN it queries the
extended-search endpoint for the entry's `ref` and, when a match is found,
sets the status to SENT, commits, and returns success; when no match is found,
it proceeds to build and issue the POST request, setting the status to UNKNOWN
and committing (not PENDING) before issuing it. -/
theorem send_resolver_C6_amended (searches : List Bool) (posts : List PostResult) :
    send .sent searches posts = (.success, [.sent])
    ∧ send .unknown (true :: searches) posts = (.success, [.sent])
    ∧ send .unknown (false :: searches) posts =
        ((sendLoop posts searches).1, .unknown :: (sendLoop posts searches).2) :=
  ⟨rfl, rfl, rfl⟩

/-! ## The socket listener (`TransactionSocket.listen`,
`src/transactionSocket.ts:93-120`)

The inner event loop pulls `os.pullEvent()` tuples and dispatches on them.  A
pulled event is its name plus its first parameter (a number for timer events,
a string for websocket events).  The three branches of the source are, in
order:

* `ev[0] == "timer" && ev[1] == keepaliveTimer` — ping timeout: signal
  status=down and reopen;
* `ev[0] == "websocket_message" && ev[1] == this._url` — signal status=up and
  handle the message;
* `ev[1] == "websocket_closed" && ev[1] == this._url` — signal status=down
  and reopen (note: both comparisons read `ev[1]`);

any other event leaves the loop pulling. -/

/-- A Lua event parameter: a number or a string. -/
inductive EvParam where
  | num (n : Int)
  | str (s : String)
deriving DecidableEq, Repr, BEq

/-- A pulled `os.pullEvent()` tuple: the event name and its first parameter. -/
structure OsEvent where
  name : String
  p1 : EvParam
deriving DecidableEq, Repr

/-- The Lua comparison `p == self._url`: true only when `p` is a string equal
to the current socket URL (`nil` compares unequal to every string). -/
def paramEqUrl (p : EvParam) (url : Option String) : Bool :=
  match p, url with
  | .str s, some u => s == u
  | _, _ => false

/-- What one dispatched event makes `listen` do next. -/
inductive ListenAction where
  /-- Signal status=down and `_reopen()` (ping-timeout branch). -/
  | pingTimeout
  /-- Signal status=up, update `_lastPing`, handle the message. -/
  | handleMessage
  /-- Signal status=down and `_reopen()` (socket-closed branch). -/
  | closedReopen
  /-- No branch matched: keep pulling events. -/
  | keepPulling
deriving DecidableEq, Repr

/-- The event dispatch of the inner loop of `TransactionSocket.listen`
(`src/transactionSocket.ts:100-117`), translated branch for branch — in
particular the third branch tests `ev[1] == "websocket_closed"` (the
parameter, not the event name) exactly as the source does. -/
def listenDispatch (url : Option String) (keepaliveTimer : Int) (ev : OsEvent) :
    ListenAction :=
  if ev.name == "timer" && ev.p1 == EvParam.num keepaliveTimer then
    .pingTimeout
  else if ev.name == "websocket_message" && paramEqUrl ev.p1 url then
    .handleMessage
  else if ev.p1 == EvParam.str "websocket_closed" && paramEqUrl ev.p1 url then
    .closedReopen
  else
    .keepPulling

/-- A `websocket_closed` event for the socket's current URL. -/
def evClosed : OsEvent := ⟨"websocket_closed", .str "wss://gateway.example/abc"⟩

/-- **C7.** The claim states that whenever the event loop in
`TransactionSocket.listen` receives a `websocket_closed` event for the
socket's current URL, it signals status=down and reopens the socket
(`ListenAction.closedReopen`).  The code compares the event parameter at the
wrong position (`ev[1] == "websocket_closed"` instead of
`ev[0] == "websocket_closed"`), so for a current URL different from the
literal string "websocket_closed" the branch never fires: the dispatched
action at this concrete closed event is `keepPulling`, not `closedReopen`. -/
theorem listenDispatch_closed_ignored_C7 :
    listenDispatch (some "wss://gateway.example/abc") 7 evClosed = .keepPulling
    ∧ ListenAction.keepPulling ≠ ListenAction.closedReopen := by
  exact ⟨rfl, by decide⟩

/-! ## The transaction queue and the socket push callback

`TransactionQueue.tryPushTransaction` and the `transactionCb` installed by the
`TransactionStream` constructor.  The queue's transaction set is passed as the
`contains` predicate (`TransactionSet.contains`); the id-keyed Lua table of
buffered transactions is an association list. -/

/-- `TransactionQueue` state: the buffered transactions by ID, the next ID to
pop, and the last seen ID. -/
structure TransactionQueue where
  transactions : List (Int × ApiTransaction)
  nextPopId : Int
  lastSeenId : Int
deriving DecidableEq, Repr

/-- `TransactionQueue.tryPushTransaction`: only succeeds if the transaction ID
comes immediately after the last seen ID; on success advance `lastSeenId` and
buffer the transaction when it belongs to the set and has not been popped
past. -/
def tryPushTransaction (contains : ApiTransaction → Bool)
    (q : TransactionQueue) (tx : ApiTransaction) : Bool × TransactionQueue :=
  if tx.id != q.lastSeenId + 1 then
    (false, q)
  else
    let q1 := { q with lastSeenId := q.lastSeenId + 1 }
    if contains tx && decide (q1.nextPopId ≤ tx.id) then
      (true, { q1 with transactions := (tx.id, tx) :: q1.transactions })
    else
      (true, q1)

/-- The `_hasReachedTail`/`_hasTailHole` pair of `TransactionStream`. -/
structure TailFlags where
  reachedTail : Bool
  tailHole : Bool
deriving DecidableEq, Repr

/-- The socket push callback `transactionCb` installed by the
`TransactionStream` constructor: try to push the transaction; on success set
`_hasReachedTail` and clear `_hasTailHole`; on failure, set `_hasTailHole`
when `_hasReachedTail` is set. -/
def transactionCb (contains : ApiTransaction → Bool) (q : TransactionQueue)
    (fl : TailFlags) (tx : ApiTransaction) : TransactionQueue × TailFlags :=
  let r := tryPushTransaction contains q tx
  if r.1 then
    (r.2, ⟨true, false⟩)
  else if fl.reachedTail then
    (r.2, ⟨fl.reachedTail, true⟩)
  else
    (r.2, fl)

/-- **C8.** `TransactionQueue.tryPushTransaction(tx)` succeeds if and only if
`tx.id` equals `lastSeenId + 1` (advancing `lastSeenId` by one on success);
and in the stream's socket push callback, a successful push sets the
`reachedTail` flag and clears the `tailHole` flag, while a rejected push made
while `reachedTail` is set sets the `tailHole` flag. -/
theorem tryPushTransaction_C8 (contains : ApiTransaction → Bool)
    (q : TransactionQueue) (fl : TailFlags) (tx : ApiTransaction) :
    (tryPushTransaction contains q tx).1 = decide (tx.id = q.lastSeenId + 1)
    ∧ (tryPushTransaction contains q tx).2.lastSeenId =
        (if tx.id = q.lastSeenId + 1 then q.lastSeenId + 1 else q.lastSeenId)
    ∧ (transactionCb contains q fl tx).2 =
        (if tx.id = q.lastSeenId + 1 then ⟨true, false⟩
         else if fl.reachedTail then ⟨fl.reachedTail, true⟩ else fl) := by
  by_cases h : tx.id = q.lastSeenId + 1 <;>
    simp [tryPushTransaction, transactionCb, h, bne] <;>
      split_ifs <;> simp_all

/-! ## `parseTime` (`util.ts`)

`parseTime` matches an ISO-8601 UTC timestamp against the Lua pattern
`^2(%d%d%d)-(%d%d)-(%d%d)T(%d%d):(%d%d):(%d%d%.?%d*)Z$` (so `y` below is the
three digits after the leading `2`: the year is `2000 + y`) and converts the
captured fields to a Unix timestamp.  Lua numbers are doubles and `/` is exact
(non-integer) division; the fields are modelled as naturals plus a rational
seconds value, and the arithmetic over `ℚ`. -/

/-- The matched fields of an ISO-8601 UTC timestamp `2yyy-mm-ddThh:mm:ss.fffZ`. -/
structure IsoTime where
  y : Nat
  mo : Nat
  d : Nat
  h : Nat
  mi : Nat
  s : ℚ
deriving DecidableEq, Repr

/-- The `DAYS` table of `util.ts`: cumulative days from the start of a 4-year
cycle (row = year mod 4, column = month index) assuming the first year of the
cycle is a leap year. -/
def DAYS : List (List ℚ) :=
  [[0, 31, 60, 91, 121, 152, 182, 213, 244, 274, 305, 335],
   [366, 397, 425, 456, 486, 517, 547, 578, 609, 639, 670, 700],
   [731, 762, 790, 821, 851, 882, 912, 943, 974, 1004, 1035, 1065],
   [1096, 1127, 1155, 1186, 1216, 1247, 1277, 1308, 1339, 1369, 1400, 1430]]

/-- `DAYS[r][m]` with TypeScript zero-based indexing. -/
def daysEntry (r m : Nat) : ℚ := (DAYS.getD r []).getD m 0

/-- `parseTime` from `util.ts`: `days = year / 4 * (365 * 4 + 1) +
DAYS[year % 4][month] + day`, then hours, minutes, seconds, plus the epoch
offset 946684800 (2000-01-01).  The division `year / 4` is Lua float division,
translated as exact division in `ℚ`. -/
def parseTime (t : IsoTime) : ℚ :=
  let year : ℚ := t.y
  let month := t.mo - 1
  let day : ℚ := (t.d : ℚ) - 1
  let days := year / 4 * (365 * 4 + 1) + daysEntry (t.y % 4) month + day
  let hours := days * 24 + t.h
  let minutes := hours * 60 + t.mi
  let seconds := minutes * 60 + t.s
  seconds + 946684800

/-- `t1` denotes a strictly earlier instant than `t2`: lexicographic order on
the timestamp fields (which coincides with temporal order for valid UTC
timestamps). -/
def earlierThan (a b : IsoTime) : Prop :=
  a.y < b.y ∨ (a.y = b.y ∧ (a.mo < b.mo ∨ (a.mo = b.mo ∧ (a.d < b.d ∨ (a.d = b.d ∧
    (a.h < b.h ∨ (a.h = b.h ∧ (a.mi < b.mi ∨ (a.mi = b.mi ∧ a.s < b.s)))))))))

/-- The fields matched from "2003-12-31T23:59:59Z". -/
def isoT1 : IsoTime := ⟨3, 12, 31, 23, 59, 59⟩

/-- The fields matched from "2004-01-01T00:00:00Z". -/
def isoT2 : IsoTime := ⟨4, 1, 1, 0, 0, 0⟩

/-- **C9.** The claim states `parseTime` is monotone on ISO-8601 UTC
timestamps in 2000–2399.  It is not: `year / 4 * 1461` uses Lua float
division where the `DAYS` table requires `floor(year / 4) * 1461`, so for
years not divisible by 4 the result is off by a fractional multiple of 1461
days.  Concretely "2003-12-31T23:59:59Z" (a strictly earlier instant, and
Unix time 1072915199) maps to 1167587999, while "2004-01-01T00:00:00Z" maps to
1072915200 < 1167587999. -/
theorem parseTime_nonmonotone_C9 :
    earlierThan isoT1 isoT2
    ∧ parseTime isoT1 = 1167587999
    ∧ parseTime isoT2 = 1072915200
    ∧ parseTime isoT2 < parseTime isoT1 := by
  refine ⟨Or.inl (by decide), ?_, ?_, ?_⟩ <;>
    norm_num [parseTime, daysEntry, DAYS, isoT1, isoT2]
